import Mathlib

/-!
Verification development for the chaptify audiobook chapterizer
(src/chaptify.py).  Each Python function used by the claims is embedded
as a Lean definition that mirrors the source line by line:

* `generate_ffmetadata`  — `MetadataManager.generate_ffmetadata`
* `get_metadata_info`    — `MetadataManager.get_metadata_info` (with the
  regex `(?:\[.*?\] )?(?P<author>[^-]+) - (?P<title>.+)` embedded as an
  explicit backtracking matcher)
* `truncate_chapters`    — the `split('[CHAPTER]', 1)[0]` cut in
  `MetadataManager.dump_input_metadata`
* `search_audiobook`, `fetch_from_url`, `fetch_chapter_metadata`,
  `fetch_extra_chapters` — the HTTP client, with network responses
  supplied as an explicit script (one scripted response per request)
* `process_file`, `run_batch` — the per-file pipeline and the loop in
  `main`, over an environment describing the external world.

Machine reals: the source computes chapter times in Python floats
(`duration_ms / 1000.0`, `+ 0.05`, `int(x * 1000)`).  Here that
arithmetic is modelled with exact rationals; `int()` truncates toward
zero, which on the nonnegative values arising here is `Rat.floor`.
The idealization is discussed where it matters.
-/

/-- A chapter record as delivered by the catalog: the fields of the item
dict that the program reads (`chapter["name"]`, `chapter["duration_ms"]`). -/
structure Chapter where
  name : String
  duration_ms : Nat
deriving Repr, DecidableEq

/-- One synthesized `[CHAPTER]` block: `START`, `END` (milliseconds,
`TIMEBASE=1/1000`) and the `title` line. -/
structure ChapterMarker where
  title : String
  start_ms : Int
  end_ms : Int
deriving Repr, DecidableEq

/-- The loop body of `MetadataManager.generate_ffmetadata`, with the running
`current_start` cursor made explicit.  Source:

```
current_start = 0.0
for chapter in chapters:
    duration = chapter["duration_ms"] / 1000.0
    current_end = current_start + duration + 0.05
    ... START={int(current_start * 1000)} END={int(current_end * 1000)}
        title={chapter['name']} ...
    current_start = current_end
```

Python float arithmetic is modelled as exact rational arithmetic and
`int()` as `Rat.floor` (truncation toward zero coincides with floor on
these nonnegative values).  This is an idealization and its outputs are
known to diverge from the float source on some inputs — at duration
118 ms the program emits `END=167` while this definition gives 168 (see
C1) — so only rounding-insensitive facts proved about it (marker count,
order, titles, adjacency of consecutive markers, the zero first start)
transfer to the program; exact start/end values transfer only at inputs
where the double arithmetic is exact. -/
def generate_ffmetadata_go (current_start : ℚ) : List Chapter → List ChapterMarker
  | [] => []
  | chapter :: rest =>
    let duration : ℚ := (chapter.duration_ms : ℚ) / 1000
    let current_end : ℚ := current_start + duration + 0.05
    { title := chapter.name
      start_ms := (current_start * 1000).floor
      end_ms := (current_end * 1000).floor } :: generate_ffmetadata_go current_end rest

/-- Embedding of `MetadataManager.generate_ffmetadata`, as the list of emitted markers
(the textual rendering of each marker is a bijective serialization of
this record). -/
def generate_ffmetadata (chapters : List Chapter) : List ChapterMarker :=
  generate_ffmetadata_go 0 chapters

/-! String utilities (Python `in`, `split`, `strip`) -/

/-- Python's substring test `needle in hay`, character-list version:
true iff `needle` occurs contiguously in the haystack. -/
def contains_sub (needle : List Char) : List Char → Bool
  | [] => needle.isEmpty
  | c :: rest => needle.isPrefixOf (c :: rest) || contains_sub needle rest

/-- Python's substring test `needle in hay` on strings. -/
def str_in (needle hay : String) : Bool :=
  contains_sub needle.toList hay.toList

/-- The prefix of a string preceding the first occurrence of `sep` — the
`s.split(sep, 1)[0]` idiom (returns the whole string when `sep` is absent). -/
def split_first (sep : List Char) : List Char → List Char
  | [] => []
  | c :: rest => if sep.isPrefixOf (c :: rest) then [] else c :: split_first sep rest

/-- The truncation step of `MetadataManager.dump_input_metadata` under
`overwrite_ch=True`:
`metadata_content = metadata_content.split('[CHAPTER]', 1)[0]` —
keep everything before the first `[CHAPTER]`. -/
def truncate_chapters (s : String) : String :=
  ⟨split_first "[CHAPTER]".toList s.toList⟩

/-! Identity resolution (`MetadataManager.get_metadata_info`) -/

/-- Python truthiness on an optional string: `not x` is true for `None`
and for the empty string. -/
def falsy : Option String → Bool
  | none => true
  | some s => s.isEmpty

/-- Python's `x = x or fallback`: keep `x` when truthy, else the fallback. -/
def or_falsy (v : Option String) (fallback : String) : Option String :=
  if falsy v then some fallback else v

/-- Python's `str.strip()` on a character list: drop whitespace from
both ends. -/
def py_strip_chars (cs : List Char) : List Char :=
  ((cs.dropWhile Char.isWhitespace).reverse.dropWhile Char.isWhitespace).reverse

/-- Python's `str.strip()`. -/
def py_strip (s : String) : String :=
  ⟨py_strip_chars s.toList⟩

/-- One metadata line: `key, value = line.strip().split("=", 1)` —
the key is everything before the first `=`, the value everything after it. -/
def split_kv (line : String) : String × String :=
  let cs := py_strip_chars line.toList
  (⟨cs.takeWhile (fun c => c ≠ '=')⟩, ⟨(cs.dropWhile (fun c => c ≠ '=')).drop 1⟩)

/-- The `metadata_dict` loop: every line containing `=` contributes a
binding, in file order (so a repeated key is overridden by the later line). -/
def metadata_dict (lines : List String) : List (String × String) :=
  lines.foldl (fun d line => if line.toList.contains '=' then d ++ [split_kv line] else d) []

/-- Python's `dict.get(key, None)` for the assoc list built by `metadata_dict`:
the last binding of the key wins, as for a Python dict filled in order. -/
def dict_get (d : List (String × String)) (key : String) : Option String :=
  d.foldl (fun acc kv => if kv.1 = key then some kv.2 else acc) none

/-!
The filename pattern `re.match(r"(?:\[.*?\] )?(?P<author>[^-]+) - (?P<title>.+)", stem)`
is embedded as an explicit backtracking matcher with Python's `re`
semantics: `re.match` anchors at the start only, `.` matches anything but
newline, `.*?` is lazy (shortest first), `[^-]+` is greedy (longest
first, then backtrack), and the optional group is tried before being
skipped.
-/

/-- The final `(?P<title>.+)`: at least one non-newline character,
captured greedily up to the end of the line. -/
def title_capture (cs : List Char) : Option (List Char) :=
  match cs.takeWhile (fun c => c ≠ '\n') with
  | [] => none
  | t => some t

/-- Try to match the literal ` - ` separator followed by the title at the
current position; `author_rev` is the (reversed) text captured so far by
`[^-]+`, which must be nonempty. -/
def try_sep (author_rev : List Char) : List Char → Option (List Char × List Char)
  | ' ' :: '-' :: ' ' :: rest =>
    if author_rev.isEmpty then none
    else (title_capture rest).map (fun t => (author_rev.reverse, t))
  | _ => none

/-- The greedy `[^-]+ - .+` tail of the pattern: extend the author run
with any non-hyphen character first, backtracking to the separator on
failure. -/
def match_author (author_rev : List Char) : List Char → Option (List Char × List Char)
  | [] => try_sep author_rev []
  | c :: rest =>
    if c = '-' then try_sep author_rev (c :: rest)
    else
      match match_author (c :: author_rev) rest with
      | some r => some r
      | none => try_sep author_rev (c :: rest)

/-- The pattern without the optional bracket group. -/
def match_core (cs : List Char) : Option (List Char × List Char) :=
  match_author [] cs

/-- The lazy `.*?\] ` inside the optional group: at each position first
try to close the bracket with `] ` and match the rest of the pattern,
then swallow one more (non-newline) character. -/
def lazy_bracket : List Char → Option (List Char × List Char)
  | [] => none
  | ']' :: ' ' :: rest =>
    match match_core rest with
    | some r => some r
    | none => lazy_bracket (' ' :: rest)
  | c :: rest => if c = '\n' then none else lazy_bracket rest

/-- The whole anchored pattern `(?:\[.*?\] )?(?P<author>[^-]+) - (?P<title>.+)`:
the optional group is attempted first (only possible when the stem starts
with `[`), and skipped if it cannot lead to a full match. -/
def re_match (stem : List Char) : Option (List Char × List Char) :=
  match stem with
  | '[' :: rest =>
    (match lazy_bracket rest with
     | some r => some r
     | none => match_core stem)
  | _ => match_core stem

/-- Runs `re.match(...)` on the filename stem, returning the raw `author` and
`title` captures. -/
def match_stem (stem : String) : Option (String × String) :=
  (re_match stem.toList).map (fun p => (⟨p.1⟩, ⟨p.2⟩))

/-- Embedding of `MetadataManager.get_metadata_info`: read `title` and `artist` from
the dumped metadata lines; if either is missing (Python-falsy), parse the
filename stem and fill only the missing fields from the (stripped)
captures.  Returns `(author, title)` as in the source. -/
def get_metadata_info (metadata_lines : List String) (stem : String) :
    Option String × Option String :=
  let d := metadata_dict metadata_lines
  let title := dict_get d "title"
  let author := dict_get d "artist"
  if falsy title || falsy author then
    match match_stem stem with
    | some (a, t) => (or_falsy author (py_strip a), or_falsy title (py_strip t))
    | none => (author, title)
  else (author, title)

/-! Catalog client (`SpotifyAudiobookManager`)

Network interaction is modelled by a *script*: a list of HTTP responses,
one consumed per request issued, in order.  `get_api_token` is modelled
as always succeeding (its own failure aborts the run at startup and is
outside these claims); the model counts how many times it is invoked. -/

/-- A raw audiobook item of the search response JSON, with exactly the
fields the source reads. -/
structure SpotifyAudiobook where
  id : String
  name : String
  authors : List String
  external_url : String
deriving Repr, DecidableEq

/-- The dict built and returned by `search_audiobook` for the first item. -/
structure BookInfo where
  id : String
  name : String
  author : String
  external_url : String
deriving Repr, DecidableEq

/-- The dict `{"id": ..., "name": ..., "author": ", ".join(names), "external_url": ...}`. -/
def mk_book_info (a : SpotifyAudiobook) : BookInfo :=
  ⟨a.id, a.name, String.intercalate ", " a.authors, a.external_url⟩

/-- A scripted response to the `/search` endpoint: HTTP status and the
parsed `audiobooks.items` list (empty for non-200 statuses, whose body
`search_audiobook` never reads). -/
structure SearchResponse where
  status : Nat
  items : List SpotifyAudiobook
deriving Repr, DecidableEq

/-- Embedding of `SpotifyAudiobookManager.search_audiobook` on a response script.
Returns `(result, auth_refreshes, requests_made)`:

* status 401 → `self.get_api_token()` then a full recursive retry
  (`return self.search_audiobook(title, author, limit)` — no retry cap);
* status 200 → the first item, or `None` when `items` is empty;
* any other status falls through to `return None`.

An exhausted script means the recursion is still running; no further
behavior is modelled for it. -/
def search_audiobook : List SearchResponse → Option BookInfo × Nat × Nat
  | [] => (none, 0, 0)
  | r :: rest =>
    if r.status = 401 then
      let (res, auths, reqs) := search_audiobook rest
      (res, auths + 1, reqs + 1)
    else if r.status = 200 then
      match r.items with
      | [] => (none, 0, 1)
      | a :: _ => (some (mk_book_info a), 0, 1)
    else (none, 0, 1)

/-- A scripted response to a chapters/page request: HTTP status,
`response.text` (used in error messages), and the parsed `items` and
`next` fields (read only on status 200). -/
structure ChapterResponse where
  status : Nat
  body : String
  items : List Chapter
  next : Option String
deriving Repr, DecidableEq

/-- A parsed chapters page: the `items` list and the optional `next`
cursor URL. -/
structure Page where
  items : List Chapter
  next : Option String
deriving Repr, DecidableEq

/-- Embedding of `SpotifyAudiobookManager.fetch_from_url`: status 200 returns the
parsed JSON, anything else raises `Error fetching data: {status} {text}` —
modelled as an error value carrying the status and body. -/
def fetch_from_url (r : ChapterResponse) : Except (Nat × String) Page :=
  if r.status = 200 then Except.ok ⟨r.items, r.next⟩
  else Except.error (r.status, r.body)

/-- Embedding of `SpotifyAudiobookManager.fetch_extra_chapters`: append the current
page's items to the accumulator, then follow the `next` cursor (fetching
the next scripted response) until no cursor remains.  The dangerous
mutable default argument of the source is irrelevant here: the one call
site in the repository passes `[]` explicitly, as does the model.
Status 0 marks the model-level artifact of an exhausted script. -/
def fetch_extra_chapters : Page → List ChapterResponse → List Chapter →
    Except (Nat × String) (List Chapter)
  | resp, [], items =>
    let items := items ++ resp.items
    match resp.next with
    | none => Except.ok items
    | some _ => Except.error (0, "script exhausted")
  | resp, r :: rest, items =>
    let items := items ++ resp.items
    match resp.next with
    | none => Except.ok items
    | some _ =>
      match fetch_from_url r with
      | Except.error e => Except.error e
      | Except.ok page => fetch_extra_chapters page rest items

/-- Embedding of `SpotifyAudiobookManager.fetch_chapter_metadata`: issue the first
chapters request (the head of the script); on 200 run
`fetch_extra_chapters(response, [])` and return the accumulated items, on
any other status raise `Error fetching chapters: {status} {text}` —
with no token refresh on 401. -/
def fetch_chapter_metadata : List ChapterResponse → Except (Nat × String) (List Chapter)
  | [] => Except.error (0, "script exhausted")
  | r :: rest =>
    if r.status = 200 then fetch_extra_chapters ⟨r.items, r.next⟩ rest []
    else Except.error (r.status, r.body)

/-- Well-formedness of a pagination script relative to the current page:
every page with a `next` cursor is followed by a scripted 200 response,
and the chain ends exactly when `next` is absent. -/
def chain_ok : Page → List ChapterResponse → Bool
  | p, [] => p.next.isNone
  | p, r :: rest => (!p.next.isNone) && (r.status == 200) && chain_ok ⟨r.items, r.next⟩ rest

/-! Per-file pipeline (`process_file` and the loop in `main`) -/

/-- Model of `pathlib.Path(path).stem`: the final path component without its last
suffix (`"x.m4b" → "x"`, `"a.tar.gz" → "a.tar"`, `".bashrc" → ".bashrc"`). -/
def path_stem (path : String) : String :=
  let name := (path.toList.reverse.takeWhile (fun c => c ≠ '/')).reverse
  let pre := ((name.reverse.dropWhile (fun c => c ≠ '.')).drop 1).reverse
  if pre.isEmpty then ⟨name⟩ else ⟨pre⟩

/-- The observable effects of one `process_file` run, in order:
subprocess invocations (`extract_call` = ffmpeg metadata dump,
`commit_call` = ffmpeg remux), network calls (`search_call`,
`fetch_call`), the metadata-file read performed by `get_metadata_info`
(`identity_read`), and the printed messages. -/
inductive Event where
  | extract_call
  | warn_skip
  | identity_read
  | search_call
  | fetch_call
  | commit_call
  | print_skip
  | print_no_identity
  | print_not_found
deriving Repr, DecidableEq

/-- A Python exception escaping `process_file` (neither `process_file`
nor the loop in `main` has any handler). -/
inductive PyError where
  | fileNotFound
  | http (status : Nat) (body : String)
  | calledProcess
deriving Repr, DecidableEq

/-- How one `process_file` call ends: normal return, or an uncaught
exception propagating out. -/
inductive Outcome where
  | ok
  | raised (e : PyError)
deriving Repr, DecidableEq

/-- The external world for one file: the result of the ffmpeg metadata
dump (`some lines` = success with that file content, `none` = subprocess
failure), a possibly pre-existing `FFMETADATAFILE` in the same directory,
the scripted search and chapters responses, and whether the final ffmpeg
remux exits zero.  File content is carried as metadata lines; the
truncation applied while writing it is `truncate_chapters`, modelled
separately. -/
structure PipelineEnv where
  extraction : Option (List String)
  stale_metadata : Option (List String)
  search_responses : List SearchResponse
  chapter_responses : List ChapterResponse
  commit_ok : Bool

/-- Embedding of `process_file(input_file, ..., overwrite_ch=True, dump_metadata_only=False)`
as called from `main`, step by step:

1. `if "_chapterized" in str(input_path): return` — skip message only;
2. `MetadataManager.__init__` runs the metadata dump inside
   `try/except`: on failure it only prints the
   `WARNING: Error reading in ..., skipping file` message and returns;
3. `get_metadata_info` then opens `FFMETADATAFILE` unconditionally — if
   the dump failed and no stale file exists this raises an uncaught
   `FileNotFoundError`; with a stale file it reads stale data;
4. missing author/title → message and return;
5. `search_audiobook`; no match → message and return;
6. `fetch_chapter_metadata`; its exception propagates uncaught;
7. `append_chapters` runs the ffmpeg remux (`subprocess.run(check=True)`);
   a non-zero exit raises an uncaught `CalledProcessError`. -/
def process_file (input_file : String) (env : PipelineEnv) : List Event × Outcome :=
  if str_in "_chapterized" input_file then
    ([Event.print_skip], Outcome.ok)
  else
    let step1 :=
      match env.extraction with
      | some lines => ([Event.extract_call], some lines)
      | none => ([Event.extract_call, Event.warn_skip], env.stale_metadata)
    match step1.2 with
    | none =>
      (step1.1 ++ [Event.identity_read], Outcome.raised PyError.fileNotFound)
    | some lines =>
      let at_ := get_metadata_info lines (path_stem input_file)
      if falsy at_.1 || falsy at_.2 then
        (step1.1 ++ [Event.identity_read, Event.print_no_identity], Outcome.ok)
      else
        match (search_audiobook env.search_responses).1 with
        | none =>
          (step1.1 ++ [Event.identity_read, Event.search_call, Event.print_not_found],
           Outcome.ok)
        | some _book =>
          match fetch_chapter_metadata env.chapter_responses with
          | Except.error e =>
            (step1.1 ++ [Event.identity_read, Event.search_call, Event.fetch_call],
             Outcome.raised (PyError.http e.1 e.2))
          | Except.ok _chapters =>
            if env.commit_ok then
              (step1.1 ++ [Event.identity_read, Event.search_call, Event.fetch_call,
                Event.commit_call], Outcome.ok)
            else
              (step1.1 ++ [Event.identity_read, Event.search_call, Event.fetch_call,
                Event.commit_call], Outcome.raised PyError.calledProcess)

/-- The `for input_file in input_files:` loop of `main`, which wraps
`process_file` in no exception handler: an exception escaping one file's
processing aborts the whole batch. -/
def run_batch : List (String × PipelineEnv) → List Event × Outcome
  | [] => ([], Outcome.ok)
  | (f, env) :: rest =>
    match process_file f env with
    | (evs, Outcome.ok) =>
      let tail := run_batch rest
      (evs ++ tail.1, tail.2)
    | (evs, Outcome.raised e) => (evs, Outcome.raised e)

/-! Lemmas about the marker synthesizer -/

/-- Lemma: `Rat.floor` agrees with the `Int.floor` of the `FloorRing ℚ` instance. -/
theorem rat_floor_eq_intFloor (q : ℚ) : q.floor = ⌊q⌋ := by
  rw [Rat.floor_def, Rat.floor_def']

/-- Consecutive markers emitted by the loop are adjacent: each marker's
start is the previous marker's end.  This fact is structural, not
arithmetical: the marker record for chapter `i+1` reads its start from
the same cursor value whose floor was emitted as chapter `i`'s end, just
as the source reassigns `current_start = current_end` and truncates the
same float twice — so it is insensitive to the exact-vs-float
idealization of the cursor arithmetic. -/
theorem go_chain :
    ∀ (cs : List Chapter) (s : ℚ),
      List.Chain' (fun a b => b.start_ms = a.end_ms) (generate_ffmetadata_go s cs) := by
  intro cs
  induction cs with
  | nil => intro s; simp [generate_ffmetadata_go]
  | cons c rest ih =>
    intro s
    simp only [generate_ffmetadata_go]
    rw [List.chain'_cons']
    refine ⟨?_, ih _⟩
    intro b hb
    cases rest with
    | nil => simp [generate_ffmetadata_go] at hb
    | cons c2 r2 =>
      simp only [generate_ffmetadata_go, List.head?, Option.mem_def, Option.some.injEq] at hb
      subst hb
      rfl

section

attribute [local semireducible] Rat.mul Rat.add Rat.sub Rat.inv Rat.ofScientific

/--
C1: For every chapter list with durations `d_1..d_n` (ms) the synthesizer
emits `n` markers in order whose `i`-th `START` is `Σ_{j<i}(d_j + 50)`,
whose `END` is `START + d_i + 50`, and whose title is the chapter name —
*in exact integer arithmetic*.  Evaluated here at the failing input, a
single chapter of 118 ms: in the exact-rational idealization of the
source the claimed value `END = 168` indeed results.  The Python source,
however, computes in IEEE-754 doubles and truncates:
`0.118 + 0.05 = 0.16799999999999998`, `int(0.16799999999999998 * 1000) =
int(167.99999999999997) = 167`, so the real program emits `END=167`,
violating the claim (and the spec's own §8 example `[1000, 2000, 500]`,
for which the program emits ends `1050, 3099, 3649` instead of the
documented `1050, 3100, 3650`).
-/
theorem C1_exact_model_at_failing_input :
    generate_ffmetadata [⟨"C", 118⟩] = [⟨"C", 0, 168⟩] := by decide

/--
C2 counterexample: the claim states each subsequent marker's start equals
the previous marker's end *plus a fixed 50 ms gap*.  For chapters of
1000 ms and 500 ms (values at which the float arithmetic of the source is
exact, so the rational model provably coincides with the real run) the
synthesizer emits `[0,1050], [1050,1600]`: the second start is `1050`,
the previous end — not the previous end plus 50 (`1100`).
-/
theorem C2_counterexample :
    generate_ffmetadata [⟨"A", 1000⟩, ⟨"B", 500⟩] =
      [⟨"A", 0, 1050⟩, ⟨"B", 1050, 1600⟩] ∧
    ¬ (generate_ffmetadata [⟨"A", 1000⟩, ⟨"B", 500⟩]).map ChapterMarker.start_ms
        = [0, 1050 + 50] := by
  constructor
  · decide
  · decide

/--
C2 (amended): in every marker sequence produced by the synthesizer the
first marker starts at 0, and each subsequent marker's start equals the
previous marker's end *exactly* — the intended 50 ms inter-chapter gap is
folded into each marker's end rather than inserted between the previous
end and the next start, so consecutive markers are adjacent.  Both facts
are insensitive to the source's floating-point rounding: the first start
is `int(0.0 * 1000)` and the start of marker `i+1` is the truncation of
the very float whose truncation was emitted as the end of marker `i`.
The original claim's remaining conjuncts — per-marker
`start_ms < end_ms` and the exact `end = start + duration + 50`
arithmetic — hold only of the exact-integer idealization and are
violated by the program's float arithmetic (C1 exhibits `end − start =
167 ≠ 168` at duration 118 ms; a duration large enough for the cursor to
absorb `+ 0.05` collapses `start = end`), so they are not part of the
amendment.
-/
theorem C2_amended_invariant (chapters : List Chapter) :
    (∀ m, (generate_ffmetadata chapters).head? = some m → m.start_ms = 0) ∧
    List.Chain' (fun a b => b.start_ms = a.end_ms) (generate_ffmetadata chapters) := by
  refine ⟨?_, go_chain _ _⟩
  intro m hm
  cases chapters with
  | nil => simp [generate_ffmetadata, generate_ffmetadata_go] at hm
  | cons c rest =>
    simp only [generate_ffmetadata, generate_ffmetadata_go, List.head?,
      Option.some.injEq] at hm
    subst hm
    show ((0 : ℚ) * 1000).floor = 0
    rw [rat_floor_eq_intFloor]
    norm_num

/-- C2 witness: on the two-chapter example the head marker starts at 0. -/
theorem C2_amended_invariant_witness :
    (generate_ffmetadata [⟨"A", 1000⟩, ⟨"B", 500⟩]).head? = some ⟨"A", 0, 1050⟩ ∧
    (⟨"A", 0, 1050⟩ : ChapterMarker).start_ms = 0 :=
  ⟨by decide, (C2_amended_invariant [⟨"A", 1000⟩, ⟨"B", 500⟩]).1 _ (by decide)⟩

end

/-! Lemmas about the catalog client -/

/-- Running `fetch_extra_chapters` on a well-formed pagination script returns the
accumulator followed by every page's items in retrieval order. -/
theorem fetch_extra_chapters_spec :
    ∀ (script : List ChapterResponse) (p : Page) (acc : List Chapter),
      chain_ok p script = true →
      fetch_extra_chapters p script acc =
        Except.ok (acc ++ p.items ++ (script.map (fun r => r.items)).flatten) := by
  intro script
  induction script with
  | nil =>
    intro p acc h
    simp only [chain_ok] at h
    simp [fetch_extra_chapters, Option.isNone_iff_eq_none.mp h]
  | cons r rest ih =>
    intro p acc h
    simp only [chain_ok, Bool.and_eq_true, Bool.not_eq_eq_eq_not, beq_iff_eq] at h
    obtain ⟨⟨hnext, hst⟩, hchain⟩ := h
    cases hp : p.next with
    | none => rw [hp] at hnext; simp at hnext
    | some u =>
      simp only [fetch_extra_chapters, hp, fetch_from_url, hst, if_pos]
      rw [ih ⟨r.items, r.next⟩ (acc ++ p.items) hchain]
      simp [List.append_assoc]

/--
C7: the chapter fetch returns the concatenation of every page's items in
retrieval order, following the `next` cursor until absent (a response
without a cursor yields exactly its own items, the `rest = []` case).
-/
theorem C7_pagination (r : ChapterResponse) (rest : List ChapterResponse)
    (hstatus : r.status = 200)
    (hchain : chain_ok ⟨r.items, r.next⟩ rest = true) :
    fetch_chapter_metadata (r :: rest) =
      Except.ok (((r :: rest).map (fun x => x.items)).flatten) := by
  simp only [fetch_chapter_metadata, hstatus, if_pos]
  rw [fetch_extra_chapters_spec rest ⟨r.items, r.next⟩ [] hchain]
  simp

/-- C7 witness: a page of 2 items with a next cursor followed by a page of
1 item with no cursor yields the 3-item list in page order. -/
theorem C7_pagination_witness :
    (⟨200, "", [⟨"c1", 1⟩, ⟨"c2", 2⟩], some "u"⟩ : ChapterResponse).status = 200 ∧
    chain_ok ⟨[⟨"c1", 1⟩, ⟨"c2", 2⟩], some "u"⟩ [⟨200, "", [⟨"c3", 3⟩], none⟩] = true ∧
    fetch_chapter_metadata
        [⟨200, "", [⟨"c1", 1⟩, ⟨"c2", 2⟩], some "u"⟩, ⟨200, "", [⟨"c3", 3⟩], none⟩] =
      Except.ok [⟨"c1", 1⟩, ⟨"c2", 2⟩, ⟨"c3", 3⟩] :=
  ⟨rfl, by decide, by
    have h := C7_pagination ⟨200, "", [⟨"c1", 1⟩, ⟨"c2", 2⟩], some "u"⟩
      [⟨200, "", [⟨"c3", 3⟩], none⟩] rfl (by decide)
    simpa using h⟩

/--
C4 counterexample: the claim says a 401 causes exactly one transparent
re-authentication and one retry, a second 401 being fatal for the call.
On the script 401, 401, 200-with-item, `search_audiobook` instead
re-authenticates twice, issues three requests and *succeeds*; and a
chapter fetch answered 401 raises immediately, with no re-authentication
and no retry at all.
-/
theorem C4_counterexample :
    search_audiobook [⟨401, []⟩, ⟨401, []⟩, ⟨200, [⟨"id", "nm", ["au"], "url"⟩]⟩] =
      (some ⟨"id", "nm", "au", "url"⟩, 2, 3) ∧
    fetch_chapter_metadata [⟨401, "expired", [], none⟩] =
      Except.error (401, "expired") := by
  exact ⟨rfl, rfl⟩

/--
C4 (amended): on 401 the search re-authenticates and retries without
bound — `n` consecutive 401 responses cause `n` re-authentications and
`n + 1` requests, with no fatal cutoff after the second failure — while
the chapter fetch and the page fetch perform no re-authentication at all:
any non-200 response, 401 included, immediately raises an error carrying
the status and body.
-/
theorem C4_amended_retry (n : ℕ) (bk : SpotifyAudiobook)
    (r : ChapterResponse) (rest : List ChapterResponse) (hr : r.status ≠ 200) :
    search_audiobook (List.replicate n ⟨401, []⟩ ++ [⟨200, [bk]⟩]) =
      (some (mk_book_info bk), n, n + 1) ∧
    fetch_chapter_metadata (r :: rest) = Except.error (r.status, r.body) ∧
    fetch_from_url r = Except.error (r.status, r.body) := by
  refine ⟨?_, ?_, ?_⟩
  · induction n with
    | zero => rfl
    | succ k ihk =>
      simp only [List.replicate_succ, List.cons_append, search_audiobook]
      simp [List.append_eq, ihk]
  · simp [fetch_chapter_metadata, hr]
  · simp [fetch_from_url, hr]

/-- C4 witness: two 401s then a success, and a 401-answered chapter fetch. -/
theorem C4_amended_retry_witness :
    (⟨401, "expired", [], none⟩ : ChapterResponse).status ≠ 200 ∧
    search_audiobook (List.replicate 2 ⟨401, []⟩ ++ [⟨200, [⟨"id", "nm", ["au"], "url"⟩]⟩]) =
      (some (mk_book_info ⟨"id", "nm", ["au"], "url"⟩), 2, 2 + 1) :=
  ⟨by decide,
    (C4_amended_retry 2 ⟨"id", "nm", ["au"], "url"⟩ ⟨401, "expired", [], none⟩ []
      (by decide)).1⟩

/--
C5 counterexample: the claim says any non-2xx response other than 401
fails with an error carrying the status and body, never silently becoming
an absent result.  A search answered 500 instead returns `None` with no
exception — one request, no retry, the status and body discarded.
-/
theorem C5_counterexample :
    search_audiobook [⟨500, []⟩] = (none, 0, 1) := rfl

/--
C5 (amended): the page fetch and the chapter fetch do raise an error
carrying the status and body on any non-200 response and the caller does
not retry them, but the search call silently converts any non-200,
non-401 response into `None` (one request, no retry, no error).
-/
theorem C5_amended_errors (sr : SearchResponse) (srest : List SearchResponse)
    (h1 : sr.status ≠ 200) (h2 : sr.status ≠ 401)
    (r : ChapterResponse) (rest : List ChapterResponse) (hr : r.status ≠ 200) :
    search_audiobook (sr :: srest) = (none, 0, 1) ∧
    fetch_from_url r = Except.error (r.status, r.body) ∧
    fetch_chapter_metadata (r :: rest) = Except.error (r.status, r.body) := by
  refine ⟨?_, ?_, ?_⟩
  · simp [search_audiobook, h1, h2]
  · simp [fetch_from_url, hr]
  · simp [fetch_chapter_metadata, hr]

/-- C5 witness: a 500-answered search and a 503-answered page fetch. -/
theorem C5_amended_errors_witness :
    (⟨500, []⟩ : SearchResponse).status ≠ 200 ∧
    (⟨500, []⟩ : SearchResponse).status ≠ 401 ∧
    (⟨503, "Service Unavailable", [], none⟩ : ChapterResponse).status ≠ 200 ∧
    search_audiobook [⟨500, []⟩] = (none, 0, 1) ∧
    fetch_from_url ⟨503, "Service Unavailable", [], none⟩ =
      Except.error (503, "Service Unavailable") :=
  ⟨by decide, by decide, by decide,
    (C5_amended_errors ⟨500, []⟩ [] (by decide) (by decide)
      ⟨503, "Service Unavailable", [], none⟩ [] (by decide)).1,
    (C5_amended_errors ⟨500, []⟩ [] (by decide) (by decide)
      ⟨503, "Service Unavailable", [], none⟩ [] (by decide)).2.1⟩

/-! Lemmas about the filename matcher -/

/-- Applying `try_sep` where the input starts with `-` fails (the
separator needs a space first). -/
theorem try_sep_at_dash (acc rest : List Char) :
    try_sep acc ('-' :: rest) = none := rfl

/-- Applying `try_sep` exactly at the ` - ` separator. -/
theorem try_sep_at_sep (acc rest : List Char) :
    try_sep acc (' ' :: '-' :: ' ' :: rest) =
      if acc.isEmpty then none
      else (title_capture rest).map (fun t => (acc.reverse, t)) := rfl

/-- A nonempty newline-free remainder is captured whole by `.+`. -/
theorem title_capture_all (t : List Char) (h1 : t ≠ []) (h2 : ∀ c ∈ t, c ≠ '\n') :
    title_capture t = some t := by
  unfold title_capture
  have ht : t.takeWhile (fun c => c ≠ '\n') = t := by
    rw [List.takeWhile_eq_self_iff]
    intro c hc
    simpa using h2 c hc
  rw [ht]
  cases t with
  | nil => exact absurd rfl h1
  | cons a l => rfl

/-- The greedy `[^-]+ - .+` engine on an input of the shape
`author ++ " - " ++ title` with a hyphen-free author: the author run
overshoots onto the separator's space, backtracks once, and captures
exactly the author and the title. -/
theorem match_author_appends :
    ∀ (a acc t : List Char),
      (∀ c ∈ a, c ≠ '-') → (acc ≠ [] ∨ a ≠ []) → t ≠ [] → (∀ c ∈ t, c ≠ '\n') →
      match_author acc (a ++ ' ' :: '-' :: ' ' :: t) = some (acc.reverse ++ a, t) := by
  intro a
  induction a with
  | nil =>
    intro acc t _ hne ht hnl
    have hacc : acc ≠ [] := by
      rcases hne with h | h
      · exact h
      · exact absurd rfl h
    have hacc2 : acc.isEmpty = false := by
      cases acc with
      | nil => exact absurd rfl hacc
      | cons x xs => rfl
    simp only [List.nil_append, List.append_nil]
    simp [match_author, try_sep_at_dash, try_sep_at_sep, hacc2,
      title_capture_all t ht hnl]
  | cons c a2 ih =>
    intro acc t hnd hne ht hnl
    have hc : c ≠ '-' := hnd c (List.mem_cons_self _ _)
    have hrec := ih (c :: acc) t (fun x hx => hnd x (List.mem_cons_of_mem _ hx))
      (Or.inl (by simp)) ht hnl
    simp only [List.cons_append, match_author, List.append_eq]
    rw [if_neg hc, hrec]
    simp [List.append_assoc]

/-- When the stem does not start with `[`, the optional bracket group is
skipped and the pattern reduces to its core. -/
theorem re_match_not_bracket (c : Char) (cs : List Char) (h : c ≠ '[') :
    re_match (c :: cs) = match_core (c :: cs) := by
  unfold re_match
  split
  · rename_i rest heq
    injection heq with h1 h2
    exact absurd h1 h
  · rfl

/-- The full pattern on `author ++ " - " ++ title` with a nonempty
hyphen-free author not starting with `[` and a nonempty newline-free
title: the captures are exactly the author and the title. -/
theorem re_match_plain (a t : List Char)
    (ha : a ≠ []) (hnd : ∀ c ∈ a, c ≠ '-') (hb : a.head? ≠ some '[')
    (ht : t ≠ []) (hnl : ∀ c ∈ t, c ≠ '\n') :
    re_match (a ++ ' ' :: '-' :: ' ' :: t) = some (a, t) := by
  cases a with
  | nil => exact absurd rfl ha
  | cons c a2 =>
    have hc : c ≠ '[' := by simpa using hb
    rw [List.cons_append, re_match_not_bracket c _ hc]
    unfold match_core
    have := match_author_appends (c :: a2) [] t hnd (Or.inr (by simp)) ht hnl
    simpa using this

/--
C6 counterexample: with no tag metadata and stem `"A-B - T"`, the claim's
pattern (author = any run without the hyphen-space separator) would
resolve `author="A-B", title="T"`; the code's character class `[^-]+`
forbids *every* hyphen, the regex fails to match, and resolution returns
`(None, None)` — the file is reported as unresolvable.
-/
theorem C6_counterexample :
    get_metadata_info [] "A-B - T" = (none, none) ∧
    get_metadata_info [] "A-B - T" ≠ (some "A-B", some "T") :=
  ⟨rfl, by decide⟩

/--
C6 (amended): identity resolution fills author and title per field, tag
metadata taking priority per field and the filename never being consulted
when both tags are set; the fallback pattern is an optional bracketed
prefix followed by `AUTHOR - TITLE` where AUTHOR is a run of characters
containing *no hyphen at all* (not merely no hyphen-space separator) and
TITLE is the remainder; the example `"[X] Author Name - Book Title"`
resolves to `author="Author Name", title="Book Title"`.
-/
theorem C6_amended_resolution :
    (∀ (lines : List String) (stem stem2 : String),
        falsy (dict_get (metadata_dict lines) "title") = false →
        falsy (dict_get (metadata_dict lines) "artist") = false →
        get_metadata_info lines stem =
          (dict_get (metadata_dict lines) "artist",
           dict_get (metadata_dict lines) "title") ∧
        get_metadata_info lines stem = get_metadata_info lines stem2) ∧
    (∀ (lines : List String) (stem : String) (a t : String),
        falsy (dict_get (metadata_dict lines) "title") = false →
        falsy (dict_get (metadata_dict lines) "artist") = true →
        match_stem stem = some (a, t) →
        get_metadata_info lines stem =
          (some (py_strip a), dict_get (metadata_dict lines) "title")) ∧
    get_metadata_info [] "[X] Author Name - Book Title" =
      (some "Author Name", some "Book Title") ∧
    (∀ (a t : List Char), a ≠ [] → (∀ c ∈ a, c ≠ '-') → a.head? ≠ some '[' →
        t ≠ [] → (∀ c ∈ t, c ≠ '\n') →
        re_match (a ++ ' ' :: '-' :: ' ' :: t) = some (a, t)) := by
  refine ⟨?_, ?_, rfl, re_match_plain⟩
  · intro lines stem stem2 h1 h2
    constructor <;> simp [get_metadata_info, h1, h2]
  · intro lines stem a t h1 h2 hm
    simp [get_metadata_info, h1, h2, hm, or_falsy]

/-- C6 witness: a tag-provided title and a filename-provided author are
combined field by field. -/
theorem C6_amended_resolution_witness :
    falsy (dict_get (metadata_dict ["title=Foo"]) "title") = false ∧
    falsy (dict_get (metadata_dict ["title=Foo"]) "artist") = true ∧
    match_stem "Jane Doe - My Book" = some ("Jane Doe", "My Book") ∧
    get_metadata_info ["title=Foo"] "Jane Doe - My Book" =
      (some "Jane Doe", some "Foo") :=
  ⟨by decide, by decide, by decide, by
    have h := C6_amended_resolution.2.1 ["title=Foo"] "Jane Doe - My Book"
      "Jane Doe" "My Book" (by decide) (by decide) (by decide)
    rw [h]; decide⟩

/-! Lemmas about truncation -/

/-- Lemma: `split_first` on `pre ++ sep ++ tail` returns exactly `pre` when no
character of `pre` equals the first character of `sep` (so no earlier or
straddling occurrence of `sep` exists). -/
theorem split_first_no_head (c0 : Char) (sep2 pre tail : List Char)
    (h : ∀ c ∈ pre, c ≠ c0) :
    split_first (c0 :: sep2) (pre ++ (c0 :: sep2) ++ tail) = pre := by
  induction pre with
  | nil =>
    have hp : (c0 :: sep2).isPrefixOf (c0 :: (sep2 ++ tail)) = true := by
      rw [List.isPrefixOf_iff_prefix]
      exact ⟨tail, by simp⟩
    simp only [List.nil_append, List.cons_append]
    simp [split_first, hp]
  | cons p pre2 ih =>
    have hp : p ≠ c0 := h p (List.mem_cons_self _ _)
    have hnp : (c0 :: sep2).isPrefixOf (p :: (pre2 ++ (c0 :: sep2) ++ tail)) = false := by
      simp [List.isPrefixOf_cons₂, Ne.symm hp]
    simp only [List.cons_append]
    simp only [split_first, hnp]
    simp only [Bool.false_eq_true, if_false, List.cons.injEq, true_and]
    exact ih (fun c hc => h c (List.mem_cons_of_mem _ hc))

/--
C8: chapter truncation is a pure textual cut keeping only the content
preceding the first `[CHAPTER]` section: for any metadata block
`pre ++ "[CHAPTER]" ++ tail` whose global section `pre` contains no `[`,
the result is exactly `pre`; in particular
`"title=Foo\nartist=Bar\n[CHAPTER]\n..."` truncates to
`"title=Foo\nartist=Bar\n"`.
-/
theorem C8_truncation (pre tail : String)
    (h : ∀ c ∈ pre.toList, c ≠ '[') :
    truncate_chapters (pre ++ "[CHAPTER]" ++ tail) = pre ∧
    truncate_chapters
        "title=Foo\nartist=Bar\n[CHAPTER]\nTIMEBASE=1/1000\nSTART=0\nEND=1050\ntitle=Chapter 1\n" =
      "title=Foo\nartist=Bar\n" := by
  constructor
  · unfold truncate_chapters
    have hdata : (pre ++ "[CHAPTER]" ++ tail).toList =
        pre.toList ++ "[CHAPTER]".toList ++ tail.toList := by
      simp [String.toList, String.data_append]
    rw [hdata]
    have hsep : "[CHAPTER]".toList = '[' :: "CHAPTER]".toList := rfl
    rw [hsep, split_first_no_head '[' ("CHAPTER]".toList) pre.toList tail.toList h]
    rfl
  · rfl

/-- C8 witness: the spec's own example block. -/
theorem C8_truncation_witness :
    (∀ c ∈ "title=Foo\nartist=Bar\n".toList, c ≠ '[') ∧
    truncate_chapters ("title=Foo\nartist=Bar\n" ++ "[CHAPTER]" ++ "\nTIMEBASE=1/1000\n") =
      "title=Foo\nartist=Bar\n" :=
  ⟨by decide,
    (C8_truncation "title=Foo\nartist=Bar\n" "\nTIMEBASE=1/1000\n" (by decide)).1⟩

/-! Lemmas about the idempotence guard -/

/-- The empty needle occurs in every haystack. -/
theorem contains_sub_nil (hay : List Char) : contains_sub [] hay = true := by
  cases hay with
  | nil => rfl
  | cons c rest => simp [contains_sub]

/-- Substring occurrence is preserved by appending on the right. -/
theorem contains_sub_append (needle l t : List Char)
    (h : contains_sub needle l = true) :
    contains_sub needle (l ++ t) = true := by
  induction l with
  | nil =>
    have hn : needle = [] := by
      simpa [contains_sub, List.isEmpty_iff] using h
    subst hn
    simpa using contains_sub_nil t
  | cons c l2 ih =>
    simp only [contains_sub, Bool.or_eq_true] at h
    simp only [List.cons_append, contains_sub, Bool.or_eq_true]
    rcases h with h | h
    · left
      rw [List.isPrefixOf_iff_prefix] at h ⊢
      exact h.trans (List.prefix_append (c :: l2) t)
    · right; exact ih h

/-- Substring occurrence in a string is preserved by appending. -/
theorem str_in_append_left (needle d rest : String)
    (h : str_in needle d = true) :
    str_in needle (d ++ rest) = true := by
  unfold str_in at h ⊢
  have hdata : (d ++ rest).toList = d.toList ++ rest.toList := by
    simp [String.toList, String.data_append]
  rw [hdata]
  exact contains_sub_append _ _ _ h

/-- Any path containing the processed-suffix marker is dispatched to the
skip branch before any other action. -/
theorem process_file_skip (path : String) (env : PipelineEnv)
    (h : str_in "_chapterized" path = true) :
    process_file path env = ([Event.print_skip], Outcome.ok) := by
  simp [process_file, h]

/--
C9: a file whose name contains the processed-suffix marker
`"_chapterized"` terminates at START: `process_file` returns after the
skip message alone — no metadata extraction, no identity read, no catalog
search, no chapter fetch and no commit occur (the trace contains no
subprocess or network event), whatever the external world would answer.
-/
theorem C9_idempotence_guard (path : String) (env : PipelineEnv)
    (h : str_in "_chapterized" path = true) :
    process_file path env = ([Event.print_skip], Outcome.ok) :=
  process_file_skip path env h

/-- C9 witness. -/
theorem C9_idempotence_guard_witness :
    str_in "_chapterized" "Book_chapterized.m4b" = true ∧
    process_file "Book_chapterized.m4b" ⟨none, none, [], [], true⟩ =
      ([Event.print_skip], Outcome.ok) :=
  ⟨by decide,
    C9_idempotence_guard "Book_chapterized.m4b" ⟨none, none, [], [], true⟩ (by decide)⟩

/--
C10: the guard tests the whole path string (`"_chapterized" in
str(input_path)`), not the file's own name: a marker occurring only in a
parent directory's name, with a marker-free filename, still causes the
immediate skip.
-/
theorem C10_guard_on_full_path (d name : String) (env : PipelineEnv)
    (hd : str_in "_chapterized" d = true)
    (_hname : str_in "_chapterized" name = false) :
    process_file (d ++ "/" ++ name) env = ([Event.print_skip], Outcome.ok) := by
  apply process_file_skip
  exact str_in_append_left _ _ _ (str_in_append_left _ _ _ hd)

/-- C10 witness: marker in the directory only. -/
theorem C10_guard_on_full_path_witness :
    str_in "_chapterized" "Audio_chapterized" = true ∧
    str_in "_chapterized" "book.m4b" = false ∧
    process_file ("Audio_chapterized" ++ "/" ++ "book.m4b") ⟨none, none, [], [], true⟩ =
      ([Event.print_skip], Outcome.ok) :=
  ⟨by decide, by decide,
    C10_guard_on_full_path "Audio_chapterized" "book.m4b" ⟨none, none, [], [], true⟩
      (by decide) (by decide)⟩

/--
C3: the claim says an extraction failure skips the file (no identity
resolution, search or commit) and that per-file errors are caught at the
orchestrator boundary so the batch proceeds.  The code only *prints* the
skip warning inside `MetadataManager.__init__` and then continues:

* with no stale `FFMETADATAFILE`, `get_metadata_info` is still attempted
  and raises an uncaught `FileNotFoundError`;
* with a stale `FFMETADATAFILE` left in the directory, the pipeline even
  proceeds to search, fetch and commit on the stale identity;
* the uncaught exception propagates through the handler-less loop in
  `main`, so a following input file is never processed — the batch
  aborts instead of proceeding.
-/
theorem C3_extraction_failure_not_skipped :
    process_file "book.m4b" ⟨none, none, [], [], true⟩ =
      ([Event.extract_call, Event.warn_skip, Event.identity_read],
        Outcome.raised PyError.fileNotFound) ∧
    process_file "book.m4b"
        ⟨none, some ["title=Foo", "artist=Bar"],
          [⟨200, [⟨"id", "Foo", ["Bar"], "url"⟩]⟩],
          [⟨200, "", [⟨"c1", 1000⟩], none⟩], true⟩ =
      ([Event.extract_call, Event.warn_skip, Event.identity_read, Event.search_call,
        Event.fetch_call, Event.commit_call], Outcome.ok) ∧
    run_batch
        [("book.m4b", ⟨none, none, [], [], true⟩),
         ("other.m4b", ⟨some ["title=Foo", "artist=Bar"], none,
           [⟨200, [⟨"id", "Foo", ["Bar"], "url"⟩]⟩],
           [⟨200, "", [⟨"c1", 1000⟩], none⟩], true⟩)] =
      ([Event.extract_call, Event.warn_skip, Event.identity_read],
        Outcome.raised PyError.fileNotFound) :=
  ⟨rfl, rfl, rfl⟩
